import Mathlib

/-!
Verification model of the SignLanguageTranslate automation core
(`automation/scripts`): the rate-limit backoff calculator
(`rate_limit_handler.py`), the manual-intervention classifier
(`manual_intervention_detector.py`), the persisted execution state and its
mutators (`state_manager.py`, `models.py`), and the phase-execution loop
(`orchestrator.py`, `Orchestrator.run_phase`).

Conventions of the embedding:
* Python `dict[str, int]` state becomes an association list threaded
  explicitly through the detector operations.
* Wall-clock timestamps (`datetime.now()`) are abstracted: fields that only
  record "a timestamp was set" are modelled as `Option Unit`, and
  `rate_limit_until` stores the wait duration instead of an absolute time.
* Python floats are modelled as exact rationals; the value of
  `random.random()` becomes an explicit parameter `r` with `0 ≤ r < 1`.
* Python `int()` truncation toward zero is `pyTrunc`.
* External collaborators (Claude, xcodebuild, git, simulator) are modelled
  by a script of outcome events consumed by the loop.
-/

namespace SLT

/-- The apostrophe character (U+0027), built from its code point so the
pattern strings below can embed it. -/
def apos : String := (Char.ofNat 39).toString

/-! ### Python string primitives -/

/-- Lower-case a character list, mirroring Python `str.lower` on ASCII text. -/
def lowerChars (l : List Char) : List Char := l.map Char.toLower

/-- `needle` occurs as a contiguous sublist of the haystack, mirroring
Python's `in` operator on strings. -/
def containsSubChars (needle : List Char) : List Char → Bool
  | [] => needle.isEmpty
  | b :: bs => needle.isPrefixOf (b :: bs) || containsSubChars needle bs

/-- Case-insensitive substring test: Python `pattern.lower() in text.lower()`. -/
def substrCI (pat text : String) : Bool :=
  containsSubChars (lowerChars pat.data) (lowerChars text.data)

/-- Python `str(x)` for an `Optional[int]`: `None` prints as `"None"`. -/
def pyStrOptInt : Option Int → String
  | none => "None"
  | some n => toString n

/-- Python slice `s[:n]`. -/
def strTake (s : String) (n : Nat) : String := ⟨s.data.take n⟩

/-- Lexicographic comparison of strings by code points, as Python `<=` sorts. -/
def charsLe : List Char → List Char → Bool
  | [], _ => true
  | _ :: _, [] => false
  | a :: as, b :: bs => if a = b then charsLe as bs else decide (a < b)

/-- Insert into a sorted list of strings. -/
def insertSorted (x : String) : List String → List String
  | [] => [x]
  | y :: ys => if charsLe x.data y.data then x :: y :: ys else y :: insertSorted x ys

/-- Python `sorted` on a list of strings. -/
def sortStrings : List String → List String
  | [] => []
  | x :: xs => insertSorted x (sortStrings xs)

/-! ### Data model (`models.py`) -/

/-- `models.Step`: steps within a phase execution. -/
inductive Step where
  | GENERATE
  | BUILD
  | TEST
  | SCREENSHOT
  | COMMIT
  | COMPLETE
deriving DecidableEq, Repr

/-- `models.Status`: overall execution status. -/
inductive Status where
  | NOT_STARTED
  | RUNNING
  | PAUSED
  | RATE_LIMITED
  | FAILED
  | COMPLETE
deriving DecidableEq, Repr

/-- `models.BuildError`. -/
structure BuildError where
  file_path : String
  line_number : Option Int
  column_number : Option Int
  message : String
  error_type : String := "error"
deriving DecidableEq, Repr

/-- `models.TestFailure`. -/
structure TestFailure where
  test_name : String
  test_class : String
  failure_message : String
  file_path : Option String := none
  line_number : Option Int := none
deriving DecidableEq, Repr

/-- `models.PhaseConfig` (fields the core consults; `description` and
`expected_files` are informational free text and omitted). -/
structure PhaseConfig where
  id : String
  name : String
  prompt_file : String := ""
  tests_required : Bool := true
  screenshot : Bool := false
deriving DecidableEq, Repr

/-- `models.PhaseResult` (`duration_seconds` is wall clock and omitted;
`files_changed`, `screenshot_path`, `commit_hash` are not consulted by any
claim but kept for shape). -/
structure PhaseResult where
  phase_id : String
  success : Bool
  iterations : Nat
  build_errors_fixed : Nat := 0
  test_failures_fixed : Nat := 0
  error_message : Option String := none
deriving DecidableEq, Repr

/-- `models.ExecutionState`: the persisted, resumable core entity.
`started_at` / `last_updated` timestamps are abstracted away;
`rate_limit_until` stores the wait in seconds instead of an absolute time. -/
structure ExecutionState where
  current_module : Option String := none
  current_phase : Option String := none
  current_step : Step := Step.GENERATE
  iteration : Nat := 0
  status : Status := Status.NOT_STARTED
  completed_phases : List String := []
  failed_phases : List String := []
  is_rate_limited : Bool := false
  rate_limit_until : Option Int := none
  consecutive_rate_limits : Nat := 0
  last_error : Option String := none
  consecutive_failures : Nat := 0
  total_iterations : Nat := 0
  total_build_errors : Nat := 0
  total_test_failures : Nat := 0
  total_rate_limits : Nat := 0
deriving DecidableEq, Repr

/-- `ExecutionState()`: the fresh zero-value state. -/
def initialState : ExecutionState := {}

/-! ### Manual-intervention detector (`manual_intervention_detector.py`) -/

/-- `ManualInterventionRequired` (the `description` and `instructions`
free-text fields are omitted: no claim mentions their content). -/
structure ManualInterventionRequired where
  category : String
  title : String
  affected_files : List String
  is_blocking : Bool := true
deriving DecidableEq, Repr

/-- One entry of `ManualInterventionDetector.MANUAL_PATTERNS` (again without
the `description` / `instructions` free text). -/
structure PatternEntry where
  patterns : List String
  category : String
  title : String
deriving DecidableEq, Repr

/-- `ManualInterventionDetector.MANUAL_PATTERNS`, in declaration order. -/
def MANUAL_PATTERNS : List PatternEntry := [
  { patterns := ["No such module " ++ apos ++ "XCTest" ++ apos,
                 "no such module " ++ apos ++ "XCTest" ++ apos],
    category := "xcode_target",
    title := "Test File Not in Test Target" },
  { patterns := ["No such module " ++ apos ++ "SwiftData" ++ apos,
                 "No such module " ++ apos ++ "SwiftUI" ++ apos],
    category := "xcode_target",
    title := "Source File Not in App Target" },
  { patterns := ["duplicate symbol", "Duplicate symbol"],
    category := "xcode_target",
    title := "Duplicate Symbol Error" },
  { patterns := ["Code Signing Error", "Provisioning profile",
                 "signing certificate", "CODESIGNING"],
    category := "signing",
    title := "Code Signing Configuration Required" },
  { patterns := ["framework not found", "library not found",
                 "ld: framework not found", "ld: library not found"],
    category := "dependency",
    title := "Missing Framework or Library" },
  { patterns := ["Unable to find a destination matching",
                 "Simulator device not found", "no destination"],
    category := "simulator",
    title := "Simulator Not Available" },
  { patterns := ["entitlements", "Entitlement"],
    category := "entitlements",
    title := "Entitlements Configuration Required" },
  { patterns := ["compiled with Swift", "was compiled with Swift",
                 "Swift version"],
    category := "swift_version",
    title := "Swift Version Mismatch" },
  { patterns := ["bridging header", "Bridging-Header.h"],
    category := "bridging_header",
    title := "Objective-C Bridging Header Issue" }]

/-- `ManualInterventionDetector.RECOVERABLE_PATTERNS`. -/
def RECOVERABLE_PATTERNS : List String := [
  "cannot find type",
  "cannot find",
  "has no member",
  "undeclared type",
  "use of undeclared",
  "expected declaration",
  "expected expression",
  "missing argument",
  "extra argument",
  "cannot convert",
  "type mismatch",
  "ambiguous",
  "protocol",
  "does not conform",
  "initializer",
  "closure",
  "return type",
  "generic parameter"]

/-- Mutable detector state: `max_same_error_retries` and the
`_error_counts` dict (modelled as an association list). -/
structure DetectorState where
  max_same_error_retries : Nat := 3
  error_counts : List (String × Nat) := []
deriving DecidableEq, Repr

/-- `ManualInterventionDetector(max_same_error_retries=3)` as constructed by
the orchestrator with the default config. -/
def initDetector : DetectorState := {}

/-- `self._error_counts.get(sig, 0)`. -/
def countsGet (m : List (String × Nat)) (k : String) : Nat :=
  match m.find? (fun p => p.fst == k) with
  | some p => p.snd
  | none => 0

/-- `self._error_counts[sig] = v`. -/
def countsSet (m : List (String × Nat)) (k : String) (v : Nat) : List (String × Nat) :=
  if (m.find? (fun p => p.fst == k)).isSome then
    m.map (fun p => if p.fst == k then (k, v) else p)
  else
    m ++ [(k, v)]

/-- The text checked against the pattern table for a build error:
`f"{error.message} {error.file_path or ''}"`. -/
def buildErrorText (e : BuildError) : String := e.message ++ " " ++ e.file_path

/-- Does any pattern of the entry occur (case-insensitively) in the text? -/
def matchesEntry (entry : PatternEntry) (text : String) : Bool :=
  entry.patterns.any (fun p => substrCI p text)

/-- The inner double loop of the checks: the first `MANUAL_PATTERNS` entry
(in declaration order) with a pattern occurring in the text. -/
def findManualEntry (text : String) : Option PatternEntry :=
  MANUAL_PATTERNS.find? (fun entry => matchesEntry entry text)

/-- `ManualInterventionDetector.check_build_errors`: first error (in list
order) matching any entry (in declaration order) wins. -/
def check_build_errors (errors : List BuildError) : Option ManualInterventionRequired :=
  if errors.isEmpty then none
  else
    errors.findSome? (fun e =>
      (findManualEntry (buildErrorText e)).map
        (fun entry =>
          { category := entry.category
            title := entry.title
            affected_files := if e.file_path.isEmpty then [] else [e.file_path]
            is_blocking := true }))

/-- `ManualInterventionDetector.check_test_failures`. -/
def check_test_failures (failures : List TestFailure) : Option ManualInterventionRequired :=
  if failures.isEmpty then none
  else
    failures.findSome? (fun f =>
      (findManualEntry f.failure_message).map
        (fun entry =>
          { category := entry.category
            title := entry.title
            affected_files :=
              match f.file_path with
              | some p => if p.isEmpty then [] else [p]
              | none => []
            is_blocking := true }))

/-- `ManualInterventionDetector._get_error_signature`: sorted
`path:line:message-prefix` parts, first five joined with `|`. -/
def get_error_signature (errors : List BuildError) : String :=
  let parts := sortStrings (errors.map (fun e =>
    e.file_path ++ ":" ++ pyStrOptInt e.line_number ++ ":" ++ strTake e.message 50))
  String.intercalate "|" (parts.take 5)

/-- Does any current error message match a recoverable pattern?
(The inner loops of `check_repeated_errors`.) -/
def errsHaveRecoverable (errors : List BuildError) : Bool :=
  errors.any (fun e => RECOVERABLE_PATTERNS.any (fun p => substrCI p e.message))

/-- The intervention emitted for a repeated-failure plateau. -/
def repeatedFailureIntervention (errors : List BuildError) : ManualInterventionRequired :=
  { category := "repeated_failure"
    title := "Repeated Build Failures"
    affected_files := errors.filterMap (fun e =>
      if e.file_path.isEmpty then none else some e.file_path)
    is_blocking := true }

/-- `ManualInterventionDetector.check_repeated_errors`: returns the optional
intervention together with the updated detector state. -/
def check_repeated_errors (st : DetectorState) (errors : List BuildError)
    (iteration : Nat) : Option ManualInterventionRequired × DetectorState :=
  if errors.isEmpty || iteration < st.max_same_error_retries then
    (none, st)
  else
    let sig := get_error_signature errors
    let cnt := countsGet st.error_counts sig + 1
    let st' := { st with error_counts := countsSet st.error_counts sig cnt }
    if st.max_same_error_retries ≤ cnt then
      if errsHaveRecoverable errors then (none, st')
      else (some (repeatedFailureIntervention errors), st')
    else
      (none, st')

/-- `ManualInterventionDetector.reset_error_counts`. -/
def reset_error_counts (st : DetectorState) : DetectorState :=
  { st with error_counts := [] }

/-! ### Rate-limit handler (`rate_limit_handler.py`)

Floats are modelled as exact rationals; `random.random()` becomes the
parameter `r ∈ [0,1)`; `datetime` fields carry only "was set" information. -/

/-- `RateLimitHandler` with the constructor's config defaults
(`base=60`, `max=900`, `multiplier=2.0`, pacing delays 5 and 10). -/
structure RateLimitHandler where
  base_wait : Int := 60
  max_wait : Int := 900
  multiplier : ℚ := 2
  delay_between_calls : Int := 5
  delay_after_failure : Int := 10
  consecutive_hits : Nat := 0
  last_hit : Option Unit := none
  last_success : Option Unit := none
  total_hits : Nat := 0
deriving DecidableEq, Repr

/-- `RateLimitHandler(config)` with an empty / default config. -/
def initRateLimitHandler : RateLimitHandler := {}

/-- Python `int(x)`: truncation toward zero. -/
def pyTrunc (q : ℚ) : Int := if 0 ≤ q then ⌊q⌋ else ⌈q⌉

/-- The exponential-backoff part of `RateLimitHandler.calculate_wait`:
`min(base * multiplier ** consecutive_hits, max)` plus ±10% jitter,
truncated to int, floored at `base_wait`. -/
def backoff_wait (h : RateLimitHandler) (r : ℚ) : Int :=
  let wait : ℚ := min ((h.base_wait : ℚ) * h.multiplier ^ h.consecutive_hits) (h.max_wait : ℚ)
  let jitter : ℚ := wait * (1 / 10) * (r * 2 - 1)
  max (pyTrunc (wait + jitter)) h.base_wait

/-- `RateLimitHandler.calculate_wait`: a truthy positive server-provided
`retry_after` is returned verbatim, otherwise exponential backoff. -/
def calculate_wait (h : RateLimitHandler) (retry_after : Option Int) (r : ℚ) : Int :=
  match retry_after with
  | some ra => if 0 < ra then ra else backoff_wait h r
  | none => backoff_wait h r

/-- `RateLimitHandler.record_hit`: increments the hit counters, then computes
the wait; returns the wait and the updated handler. -/
def record_hit (h : RateLimitHandler) (retry_after : Option Int) (r : ℚ) :
    Int × RateLimitHandler :=
  let h' := { h with
    consecutive_hits := h.consecutive_hits + 1
    total_hits := h.total_hits + 1
    last_hit := some () }
  (calculate_wait h' retry_after r, h')

/-- `RateLimitHandler.record_success`: resets the consecutive counter. -/
def record_success (h : RateLimitHandler) : RateLimitHandler :=
  { h with consecutive_hits := 0, last_success := some () }

/-- `RateLimitHandler.get_failure_delay`. -/
def get_failure_delay (h : RateLimitHandler) : Int :=
  h.delay_after_failure

/-! ### State manager (`state_manager.py`)

Each mutator updates the in-memory `ExecutionState` and then persists it
(`save_state` writes the whole state synchronously); in this single-threaded
model the persisted state is therefore always the value returned here. -/

/-- `StateManager.start_execution`. -/
def start_execution (s : ExecutionState) : ExecutionState :=
  { s with status := Status.RUNNING }

/-- `StateManager.start_phase`: enters a phase at `GENERATE`, iteration 1. -/
def start_phase (s : ExecutionState) (module_id : String) (phase : PhaseConfig) :
    ExecutionState :=
  { s with
    current_module := some module_id
    current_phase := some phase.id
    current_step := Step.GENERATE
    iteration := 1
    consecutive_failures := 0
    last_error := none }

/-- `StateManager.advance_step`. -/
def advance_step (s : ExecutionState) (next : Step) : ExecutionState :=
  { s with current_step := next }

/-- `StateManager.record_retry`: increments the iteration counters and sets
the step to retry. -/
def record_retry (s : ExecutionState) (step : Step) : ExecutionState :=
  { s with
    iteration := s.iteration + 1
    total_iterations := s.total_iterations + 1
    current_step := step }

/-- `StateManager.record_build_errors`. -/
def state_record_build_errors (s : ExecutionState) (count : Nat) : ExecutionState :=
  { s with total_build_errors := s.total_build_errors + count }

/-- `StateManager.record_test_failures`. -/
def state_record_test_failures (s : ExecutionState) (count : Nat) : ExecutionState :=
  { s with total_test_failures := s.total_test_failures + count }

/-- `StateManager.complete_phase`: appends to `completed_phases` unless
already present. -/
def complete_phase (s : ExecutionState) (phase_id : String) : ExecutionState :=
  { s with
    completed_phases :=
      if phase_id ∈ s.completed_phases then s.completed_phases
      else s.completed_phases ++ [phase_id]
    current_step := Step.COMPLETE
    consecutive_failures := 0 }

/-- `StateManager.fail_phase`: appends to `failed_phases` unless already
present. -/
def fail_phase (s : ExecutionState) (phase_id : String) (error : String) :
    ExecutionState :=
  { s with
    failed_phases :=
      if phase_id ∈ s.failed_phases then s.failed_phases
      else s.failed_phases ++ [phase_id]
    last_error := some error
    consecutive_failures := s.consecutive_failures + 1 }

/-- `StateManager.record_rate_limit` (the absolute `wait_until` timestamp is
modelled by the wait duration). -/
def record_rate_limit (s : ExecutionState) (wait_until : Int) : ExecutionState :=
  { s with
    is_rate_limited := true
    rate_limit_until := some wait_until
    consecutive_rate_limits := s.consecutive_rate_limits + 1
    total_rate_limits := s.total_rate_limits + 1
    status := Status.RATE_LIMITED }

/-- `StateManager.clear_rate_limit`. -/
def clear_rate_limit (s : ExecutionState) : ExecutionState :=
  { s with
    is_rate_limited := false
    rate_limit_until := none
    consecutive_rate_limits := 0
    status := Status.RUNNING }

/-- `StateManager.pause_execution`. -/
def pause_execution (s : ExecutionState) : ExecutionState :=
  { s with status := Status.PAUSED }

/-- `StateManager.complete_execution`. -/
def complete_execution (s : ExecutionState) : ExecutionState :=
  { s with
    status := Status.COMPLETE
    current_phase := none
    current_step := Step.COMPLETE }

/-- Every `ExecutionState` reachable from the fresh state through the
`StateManager` mutators (`reset_state` re-creates the fresh state, so it is
covered by `init`). -/
inductive Reachable : ExecutionState → Prop where
  | init : Reachable initialState
  | start_execution {s} : Reachable s → Reachable (start_execution s)
  | start_phase {s} (module_id : String) (phase : PhaseConfig) :
      Reachable s → Reachable (start_phase s module_id phase)
  | advance_step {s} (next : Step) : Reachable s → Reachable (advance_step s next)
  | record_retry {s} (step : Step) : Reachable s → Reachable (record_retry s step)
  | record_build_errors {s} (count : Nat) :
      Reachable s → Reachable (state_record_build_errors s count)
  | record_test_failures {s} (count : Nat) :
      Reachable s → Reachable (state_record_test_failures s count)
  | complete_phase {s} (phase_id : String) :
      Reachable s → Reachable (complete_phase s phase_id)
  | fail_phase {s} (phase_id error : String) :
      Reachable s → Reachable (fail_phase s phase_id error)
  | record_rate_limit {s} (wait_until : Int) :
      Reachable s → Reachable (record_rate_limit s wait_until)
  | clear_rate_limit {s} : Reachable s → Reachable (clear_rate_limit s)
  | pause_execution {s} : Reachable s → Reachable (pause_execution s)
  | complete_execution {s} : Reachable s → Reachable (complete_execution s)

/-! ### Phase executor (`orchestrator.py`, `Orchestrator.run_phase`)

The loop is driven by a script of outcome events for the external
collaborators (Claude, xcodebuild).  Each external call consumes the head
event; a head event of the wrong kind means the script does not describe
this code path and the run is reported as `none`.  Analytics, dashboard,
logging, prompt text, file writes, screenshots and git commits have no
effect on the modelled state and are elided. -/

/-- Outcome of one external call, as observed by `run_phase`.
`genRate` is Claude raising `RateLimitError` (with the optional
server-provided `retry_after` and the jitter sample `r`). -/
inductive ExtEvent where
  | genOk
  | genErr (err : String)
  | genRate (retry_after : Option Int) (r : ℚ)
  | buildOk
  | buildErr (errors : List BuildError)
  | testOk
  | testErr (failures : List TestFailure) (error_output : String)
deriving DecidableEq, Repr

/-- The local state of one `run_phase` call: the persisted
`ExecutionState`, the local `iteration` variable, and the orchestrator's
detector and rate limiter (which outlive the phase). -/
structure RunState where
  exec : ExecutionState
  iteration : Nat
  detector : DetectorState
  limiter : RateLimitHandler
  build_errors_fixed : Nat := 0
  test_failures_fixed : Nat := 0
deriving DecidableEq, Repr

/-- Result of one block of the loop body: return from `run_phase`,
`continue` the while loop, fall through to the next block, or a script
mismatch. -/
inductive BodyOut where
  | ret (res : PhaseResult) (rs : RunState)
  | cont (rs : RunState) (evs : List ExtEvent)
  | next (rs : RunState) (evs : List ExtEvent)
  | stuck
deriving DecidableEq, Repr

/-- `Orchestrator._handle_step_failure`: records the retry
(`record_retry(GENERATE)`) and returns `iteration + 1`. -/
def handle_step_failure (rs : RunState) : RunState :=
  { rs with exec := record_retry rs.exec Step.GENERATE, iteration := rs.iteration + 1 }

/-- `Orchestrator._fail_phase`: marks the phase failed and builds the failed
`PhaseResult` whose `iterations` is the persisted `state.iteration`. -/
def fail_phase_result (rs : RunState) (phase_id error : String) :
    PhaseResult × RunState :=
  let s := fail_phase rs.exec phase_id error
  ({ phase_id := phase_id
     success := false
     iterations := s.iteration
     error_message := some error },
   { rs with exec := s })

/-- The `except RateLimitError` handler of `run_phase`: record the hit,
persist rate-limited status, wait, clear the status.  Returns the resumed
run state and the intermediate persisted (rate-limited) state. -/
def handleRateLimit (rs : RunState) (retry_after : Option Int) (r : ℚ) :
    RunState × ExecutionState :=
  let hit := record_hit rs.limiter retry_after r
  let sLimited := record_rate_limit rs.exec hit.fst
  let sCleared := clear_rate_limit sLimited
  ({ rs with exec := sCleared, limiter := hit.snd }, sLimited)

/-- The `if state.current_step == Step.GENERATE` block (with the
`RateLimitError` handler attached at its only raise site, the Claude call). -/
def doGenerate (rs : RunState) (evs : List ExtEvent) : BodyOut :=
  if rs.exec.current_step = Step.GENERATE then
    match evs with
    | ExtEvent.genOk :: evs' =>
        BodyOut.next
          { rs with
            exec := advance_step rs.exec Step.BUILD
            limiter := record_success rs.limiter }
          evs'
    | ExtEvent.genErr _ :: evs' =>
        BodyOut.cont (handle_step_failure rs) evs'
    | ExtEvent.genRate ra r :: evs' =>
        BodyOut.cont (handleRateLimit rs ra r).fst evs'
    | _ => BodyOut.stuck
  else BodyOut.next rs evs

/-- The `if state.current_step == Step.BUILD` block. -/
def doBuild (phase : PhaseConfig) (rs : RunState) (evs : List ExtEvent) : BodyOut :=
  if rs.exec.current_step = Step.BUILD then
    match evs with
    | ExtEvent.buildOk :: evs' =>
        BodyOut.next
          { rs with
            exec := advance_step rs.exec Step.TEST
            detector := reset_error_counts rs.detector }
          evs'
    | ExtEvent.buildErr errors :: evs' =>
        match check_build_errors errors with
        | some interv =>
            if interv.is_blocking then
              let rs1 := { rs with exec := pause_execution rs.exec }
              let fr := fail_phase_result rs1 phase.id
                ("Manual intervention required: " ++ interv.title)
              BodyOut.ret fr.fst fr.snd
            else
              BodyOut.cont (buildRetry phase rs rs.detector errors) evs'
        | none =>
            let cr := check_repeated_errors rs.detector errors rs.iteration
            match cr.fst with
            | some interv =>
                if interv.is_blocking then
                  let rs1 := { rs with
                    exec := pause_execution rs.exec
                    detector := cr.snd }
                  let fr := fail_phase_result rs1 phase.id
                    ("Manual intervention required: " ++ interv.title)
                  BodyOut.ret fr.fst fr.snd
                else
                  BodyOut.cont (buildRetry phase rs cr.snd errors) evs'
            | none =>
                BodyOut.cont (buildRetry phase rs cr.snd errors) evs'
    | _ => BodyOut.stuck
  else BodyOut.next rs evs
where
  /-- The non-blocking build-failure path: record the errors, build the fix
  prompt (no modelled state), retry via `_handle_step_failure`, then
  `advance_step(GENERATE)` and `continue`. -/
  buildRetry (_phase : PhaseConfig) (rs : RunState) (det : DetectorState)
      (errors : List BuildError) : RunState :=
    let rs1 := { rs with
      exec := state_record_build_errors rs.exec errors.length
      detector := det
      build_errors_fixed := rs.build_errors_fixed + errors.length }
    let rs2 := handle_step_failure rs1
    { rs2 with exec := advance_step rs2.exec Step.GENERATE }

/-- `error_output` lines containing `error:` (case-insensitive), turned into
path-less `BuildError`s — the test-step scan for embedded build errors. -/
def parse_test_build_errors (error_output : String) : List BuildError :=
  (error_output.splitOn "\n").filterMap (fun line =>
    if substrCI "error:" line then
      some { file_path := "", line_number := none, column_number := none,
             message := line.trim }
    else none)

/-- The `if state.current_step == Step.TEST` block.  Note: the test-failure
path never calls `check_repeated_errors` and never resets the detector. -/
def doTest (phase : PhaseConfig) (rs : RunState) (evs : List ExtEvent) : BodyOut :=
  if rs.exec.current_step = Step.TEST then
    if !phase.tests_required then
      BodyOut.next { rs with exec := advance_step rs.exec Step.SCREENSHOT } evs
    else
      match evs with
      | ExtEvent.testOk :: evs' =>
          BodyOut.next { rs with exec := advance_step rs.exec Step.SCREENSHOT } evs'
      | ExtEvent.testErr failures error_output :: evs' =>
          let i1 := check_test_failures failures
          let i2 :=
            if i1.isSome then i1
            else if error_output.isEmpty then none
            else
              let tbe := parse_test_build_errors error_output
              if tbe.isEmpty then none else check_build_errors tbe
          match i2 with
          | some interv =>
              if interv.is_blocking then
                let rs1 := { rs with exec := pause_execution rs.exec }
                let fr := fail_phase_result rs1 phase.id
                  ("Manual intervention required: " ++ interv.title)
                BodyOut.ret fr.fst fr.snd
              else
                BodyOut.cont (testRetry rs failures) evs'
          | none =>
              BodyOut.cont (testRetry rs failures) evs'
      | _ => BodyOut.stuck
  else BodyOut.next rs evs
where
  /-- The non-blocking test-failure path: record the failures, fix prompt,
  `_handle_step_failure`, `advance_step(GENERATE)`, `continue`. -/
  testRetry (rs : RunState) (failures : List TestFailure) : RunState :=
    let rs1 := { rs with
      exec := state_record_test_failures rs.exec failures.length
      test_failures_fixed := rs.test_failures_fixed + failures.length }
    let rs2 := handle_step_failure rs1
    { rs2 with exec := advance_step rs2.exec Step.GENERATE }

/-- The `SCREENSHOT` block: capture is best-effort and cannot fail the
phase; the only state effect is advancing to `COMMIT`. -/
def doScreenshot (rs : RunState) (evs : List ExtEvent) : BodyOut :=
  if rs.exec.current_step = Step.SCREENSHOT then
    BodyOut.next { rs with exec := advance_step rs.exec Step.COMMIT } evs
  else BodyOut.next rs evs

/-- The `COMMIT` block: best-effort commit, then advance to `COMPLETE`. -/
def doCommit (rs : RunState) (evs : List ExtEvent) : BodyOut :=
  if rs.exec.current_step = Step.COMMIT then
    BodyOut.next { rs with exec := advance_step rs.exec Step.COMPLETE } evs
  else BodyOut.next rs evs

/-- The `COMPLETE` block: `complete_phase`, then return the successful
`PhaseResult`. -/
def doComplete (phase : PhaseConfig) (rs : RunState) (evs : List ExtEvent) : BodyOut :=
  if rs.exec.current_step = Step.COMPLETE then
    BodyOut.ret
      { phase_id := phase.id
        success := true
        iterations := rs.iteration
        build_errors_fixed := rs.build_errors_fixed
        test_failures_fixed := rs.test_failures_fixed }
      { rs with exec := complete_phase rs.exec phase.id }
  else BodyOut.next rs evs

/-- Sequencing of the body blocks: `ret` / `cont` / `stuck` short-circuit,
`next` falls through. -/
def seqOut (a : BodyOut) (f : RunState → List ExtEvent → BodyOut) : BodyOut :=
  match a with
  | BodyOut.next rs evs => f rs evs
  | x => x

/-- One pass through the body of the `while` loop of `run_phase`. -/
def runBody (phase : PhaseConfig) (rs : RunState) (evs : List ExtEvent) : BodyOut :=
  seqOut (doGenerate rs evs) (fun rs e =>
    seqOut (doBuild phase rs e) (fun rs e =>
      seqOut (doTest phase rs e) (fun rs e =>
        seqOut (doScreenshot rs e) (fun rs e =>
          seqOut (doCommit rs e) (fun rs e =>
            doComplete phase rs e)))))

/-- The `while iteration <= max_retries_per_phase` loop of `run_phase`.
`fuel` bounds the number of body passes (the guard needs no fuel, so
max-retries exhaustion is observed even at fuel 0).  Returns the
`PhaseResult` and the orchestrator state after the call, or `none` when the
event script does not describe this code path. -/
def runLoop (phase : PhaseConfig) (maxR : Nat) :
    Nat → RunState → List ExtEvent → Option (PhaseResult × RunState)
  | fuel, rs, evs =>
    if maxR < rs.iteration then
      some (fail_phase_result rs phase.id
        ("Max retries (" ++ toString maxR ++ ") exceeded"))
    else
      match fuel with
      | 0 => none
      | fuel' + 1 =>
        match runBody phase rs evs with
        | BodyOut.ret res rs' => some (res, rs')
        | BodyOut.cont rs' evs' => runLoop phase maxR fuel' rs' evs'
        | BodyOut.next rs' evs' => runLoop phase maxR fuel' rs' evs'
        | BodyOut.stuck => none

/-- `Orchestrator.run_phase` for a known phase with a loadable prompt:
`start_phase` (which sets `GENERATE` / iteration 1), then the loop with the
local `iteration` read back from the persisted state. -/
def runPhase (s0 : ExecutionState) (det : DetectorState) (lim : RateLimitHandler)
    (module_id : String) (phase : PhaseConfig) (maxR fuel : Nat)
    (evs : List ExtEvent) : Option (PhaseResult × RunState) :=
  let s1 := start_phase s0 module_id phase
  runLoop phase maxR fuel
    { exec := s1, iteration := s1.iteration, detector := det, limiter := lim }
    evs

/-! ### Concrete fixtures used by the claim theorems -/

/-- The first pattern of the first `MANUAL_PATTERNS` entry. -/
def xctestPat : String := "No such module " ++ apos ++ "XCTest" ++ apos

/-- A phase configuration with tests required. -/
def phaseC : PhaseConfig := { id := "phase-3", name := "Phase 3", prompt_file := "p3.md" }

/-- A recoverable build-error list (matches the `cannot find type`
recoverable pattern and no manual pattern). -/
def E7 : List BuildError :=
  [{ file_path := "A.swift", line_number := some 1, column_number := none,
     message := "cannot find type Foo in scope" }]

/-- A build-error list matching neither a manual pattern nor a recoverable
pattern. -/
def E4 : List BuildError :=
  [{ file_path := "A.swift", line_number := some 10, column_number := none,
     message := "boom mystery failure" }]

/-- The event script for `n` retry rounds of generate-success followed by
build-failure with errors `E`. -/
def failTrace (E : List BuildError) : Nat → List ExtEvent
  | 0 => []
  | n + 1 => ExtEvent.genOk :: ExtEvent.buildErr E :: failTrace E n

/-- A build-error list whose first error matches the code-signing patterns
while its second error mentions the missing XCTest module. -/
def check_build_errors_counterexample_list : List BuildError :=
  [{ file_path := "App/Auth.swift", line_number := some 3, column_number := none,
     message := "Code Signing Error: no signing certificate found" },
   { file_path := "Tests/FooTests.swift", line_number := some 1, column_number := none,
     message := "No such module " ++ apos ++ "XCTest" ++ apos }]

/-! ### Helper lemmas -/

theorem isPrefixOf_append_right {n l m : List Char} (h : n.isPrefixOf l = true) :
    n.isPrefixOf (l ++ m) = true := by
  induction n generalizing l with
  | nil => simp [List.isPrefixOf]
  | cons a as ih =>
    cases l with
    | nil => simp [List.isPrefixOf] at h
    | cons b bs =>
      simp only [List.isPrefixOf, Bool.and_eq_true] at h ⊢
      exact ⟨h.1, ih h.2⟩

theorem containsSubChars_append_right {n l m : List Char}
    (h : containsSubChars n l = true) : containsSubChars n (l ++ m) = true := by
  induction l with
  | nil =>
    simp only [containsSubChars, List.isEmpty_eq_true] at h
    subst h
    cases m with
    | nil => rfl
    | cons b bs => simp [containsSubChars, List.isPrefixOf]
  | cons b bs ih =>
    simp only [containsSubChars, Bool.or_eq_true, List.cons_append] at h ⊢
    rcases h with h | h
    · exact Or.inl (isPrefixOf_append_right h)
    · exact Or.inr (ih h)

/-- A case-insensitive substring of `a` is one of `a ++ b`. -/
theorem substrCI_append_right {p : String} (a b : String)
    (h : substrCI p a = true) : substrCI p (a ++ b) = true := by
  have hdata : (a ++ b).data = a.data ++ b.data := rfl
  simp only [substrCI, hdata, lowerChars, List.map_append]
  exact containsSubChars_append_right h

theorem findSome?_append_of_forall_none {α β : Type} {f : α → Option β}
    {l1 l2 : List α} (h : ∀ x ∈ l1, f x = none) :
    (l1 ++ l2).findSome? f = l2.findSome? f := by
  induction l1 with
  | nil => rfl
  | cons a as ih =>
    have ha : f a = none := h a (List.mem_cons_self a as)
    simp only [List.cons_append, List.findSome?_cons, ha]
    exact ih (fun x hx => h x (List.mem_cons_of_mem a hx))

/-- `check_repeated_errors` never fires when some current error matches a
recoverable pattern, whatever the accumulated counts. -/
theorem check_repeated_errors_fst_of_recoverable (st : DetectorState)
    (E : List BuildError) (it : Nat) (hrec : errsHaveRecoverable E = true) :
    (check_repeated_errors st E it).fst = none := by
  unfold check_repeated_errors
  split
  · rfl
  · simp only [hrec]
    split <;> simp

/-- `check_repeated_errors` preserves the configured threshold. -/
theorem check_repeated_errors_max (st : DetectorState) (E : List BuildError)
    (it : Nat) :
    (check_repeated_errors st E it).snd.max_same_error_retries =
      st.max_same_error_retries := by
  unfold check_repeated_errors
  split
  · rfl
  · dsimp only
    split
    · split <;> rfl
    · rfl

theorem countsGet_nil (k : String) : countsGet [] k = 0 := rfl

theorem countsSet_nil (k : String) (v : Nat) : countsSet [] k v = [(k, v)] := rfl

theorem countsGet_singleton (k : String) (c : Nat) : countsGet [(k, c)] k = c := by
  simp [countsGet, List.find?]

theorem countsSet_singleton (k : String) (c v : Nat) :
    countsSet [(k, c)] k v = [(k, v)] := by
  simp [countsSet, List.find?]

/-- Exceeding the retry ceiling exits the loop with `_fail_phase`
regardless of the current step and the remaining script. -/
theorem runLoop_guard_exit (phase : PhaseConfig) (maxR fuel : Nat)
    (rs : RunState) (evs : List ExtEvent) (h : maxR < rs.iteration) :
    runLoop phase maxR fuel rs evs =
      some (fail_phase_result rs phase.id
        ("Max retries (" ++ toString maxR ++ ") exceeded")) := by
  rw [runLoop.eq_def]
  simp [h]

/-! ### Claim theorems -/

/-- C10: on the empty error / failure list each detector check returns no
intervention, regardless of the accumulated signature counts and of the
iteration argument. -/
theorem empty_inputs_no_intervention (d : DetectorState) (it : Nat) :
    check_build_errors [] = none ∧ check_test_failures [] = none ∧
    (check_repeated_errors d [] it).fst = none := by
  refine ⟨rfl, rfl, ?_⟩
  unfold check_repeated_errors
  simp

/-- C8: a positive server-supplied retry-after value is returned verbatim by
`record_hit`, regardless of the consecutive-hit count. -/
theorem retry_after_honored (h : RateLimitHandler) (ra : Int) (r : ℚ)
    (hra : 0 < ra) : (record_hit h (some ra) r).fst = ra := by
  simp [record_hit, calculate_wait, hra]

/-- Witness for C8: a retry-after of 30 is returned exactly even after 7
consecutive hits. -/
theorem retry_after_honored_witness :
    (record_hit { initRateLimitHandler with consecutive_hits := 7 }
      (some 30) (1 / 3)).fst = 30 :=
  retry_after_honored { initRateLimitHandler with consecutive_hits := 7 }
    30 (1 / 3) (by norm_num)

/-- After `record_hit` increments the counter to 1 with the default
configuration, the backoff formula reduces to `max (int(108 + 24r)) 60`. -/
theorem backoff_wait_one_hit (h : RateLimitHandler) (r : ℚ)
    (hbase : h.base_wait = 60) (hmax : h.max_wait = 900)
    (hmult : h.multiplier = 2) (hhits : h.consecutive_hits = 1) :
    backoff_wait h r = max (pyTrunc (108 + 24 * r)) 60 := by
  unfold backoff_wait
  rw [hbase, hmax, hmult, hhits]
  have h1 : min (((60:ℤ) : ℚ) * 2 ^ (1:ℕ)) (((900:ℤ)) : ℚ) = 120 := by norm_num
  dsimp only
  rw [h1]
  have h2 : (120:ℚ) + 120 * (1 / 10) * (r * 2 - 1) = 108 + 24 * r := by ring
  rw [h2]

/-- Nonnegative rationals truncate to their floor (Python `int()`). -/
theorem pyTrunc_of_nonneg (q : ℚ) (h : 0 ≤ q) : pyTrunc q = ⌊q⌋ := by
  simp [pyTrunc, h]

/-- C3, counterexample: with the default configuration
(`base=60, multiplier=2.0, max=900`), `record_hit` called while the
consecutive-hit counter is 0 returns 120 at zero jitter (`r = 1/2`), which
is outside `[54, 66]` — the counter is incremented before the backoff is
computed. -/
theorem first_hit_outside_base_range :
    (record_hit initRateLimitHandler none (1 / 2)).fst = 120 ∧
    ¬(54 ≤ (record_hit initRateLimitHandler none (1 / 2)).fst ∧
      (record_hit initRateLimitHandler none (1 / 2)).fst ≤ 66) := by
  have hv : (record_hit initRateLimitHandler none (1 / 2)).fst = 120 := by
    show calculate_wait _ none (1 / 2) = 120
    show backoff_wait _ (1 / 2) = 120
    rw [backoff_wait_one_hit _ _ rfl rfl rfl rfl]
    have h1 : (108:ℚ) + 24 * (1 / 2) = ((120:ℤ) : ℚ) := by norm_num
    rw [h1, pyTrunc_of_nonneg _ (by norm_num), Int.floor_intCast]
    decide
  exact ⟨hv, by rw [hv]; decide⟩

theorem record_hit_none_fst (h : RateLimitHandler) (r : ℚ) :
    (record_hit h none r).fst =
      backoff_wait { h with
        consecutive_hits := h.consecutive_hits + 1
        total_hits := h.total_hits + 1
        last_hit := some () } r := rfl

/-- C3, amended: with `base=60, multiplier=2.0, max=900` and no server
retry-after value, `record_hit` called while the consecutive-hit counter is
0 returns a wait in `[108, 132]` (120 ± 10% jitter) for every jitter value
`r ∈ [0, 1]`: the hit counter is incremented before the backoff is
computed, so the first wait is `base * multiplier`, not `base`. -/
theorem first_hit_wait_range (h : RateLimitHandler) (r : ℚ)
    (hbase : h.base_wait = 60) (hmax : h.max_wait = 900)
    (hmult : h.multiplier = 2) (hhits : h.consecutive_hits = 0)
    (hr0 : 0 ≤ r) (hr1 : r ≤ 1) :
    108 ≤ (record_hit h none r).fst ∧ (record_hit h none r).fst ≤ 132 := by
  have hv : (record_hit h none r).fst = max (pyTrunc (108 + 24 * r)) 60 := by
    rw [record_hit_none_fst]
    exact backoff_wait_one_hit _ r hbase hmax hmult (by simp [hhits])
  rw [hv, pyTrunc_of_nonneg _ (by linarith)]
  have hlow : (108:ℤ) ≤ ⌊(108:ℚ) + 24 * r⌋ := by
    apply Int.le_floor.mpr
    push_cast
    linarith
  have hhigh : ⌊(108:ℚ) + 24 * r⌋ ≤ 132 := by
    have hfl : ((⌊(108:ℚ) + 24 * r⌋ : ℤ) : ℚ) ≤ 108 + 24 * r := Int.floor_le _
    have h2 : (108:ℚ) + 24 * r ≤ 132 := by linarith
    exact_mod_cast le_trans hfl h2
  constructor
  · exact le_trans hlow (le_max_left _ _)
  · rw [max_eq_left (le_trans (by norm_num) hlow)]
    exact hhigh

/-- Witness for the amended C3: at zero jitter the first hit waits 120
seconds, inside `[108, 132]`. -/
theorem first_hit_wait_range_witness :
    108 ≤ (record_hit initRateLimitHandler none (1 / 2)).fst ∧
    (record_hit initRateLimitHandler none (1 / 2)).fst ≤ 132 :=
  first_hit_wait_range initRateLimitHandler (1 / 2) rfl rfl rfl rfl
    (by norm_num) (by norm_num)

/-- C9, counterexample: the error list is scanned error-first, so an
earlier error matching the code-signing patterns decides the category even
though a later error's message contains `No such module 'XCTest'` — the
result is `signing`, not `xcode_target`. -/
theorem xctest_not_first_match :
    substrCI xctestPat
      (check_build_errors_counterexample_list.get ⟨1, by decide⟩).message = true ∧
    ((check_build_errors check_build_errors_counterexample_list).map
      (fun i => i.category)) = some "signing" := by
  constructor
  · decide
  · decide

/-- Any error whose message mentions the missing XCTest module is matched by
the first entry of the pattern table. -/
theorem findManualEntry_xctest (e : BuildError)
    (hmatch : substrCI xctestPat e.message = true) :
    (findManualEntry (buildErrorText e)).map
      (fun entry => (entry.category, entry.title)) =
      some ("xcode_target", "Test File Not in Test Target") := by
  have htext : substrCI ("No such module " ++ apos ++ "XCTest" ++ apos)
      (buildErrorText e) = true := by
    unfold buildErrorText
    exact substrCI_append_right _ _ (substrCI_append_right _ _ hmatch)
  unfold findManualEntry MANUAL_PATTERNS
  rw [List.find?_cons_of_pos]
  · rfl
  · simp only [matchesEntry, List.any_cons, List.any_nil, htext,
      Bool.true_or]

/-- C9, amended: `check_build_errors` scans the error list first and the
pattern table second, so the intervention is `xcode_target`/blocking
whenever some error's message contains `No such module 'XCTest'` and no
earlier error in the list matches any entry of the pattern table; within a
single error, the first matching entry in declaration order decides. -/
theorem xctest_category_when_first_match (pre post : List BuildError)
    (e : BuildError)
    (hpre : ∀ e' ∈ pre, findManualEntry (buildErrorText e') = none)
    (hmatch : substrCI xctestPat e.message = true) :
    ((check_build_errors (pre ++ e :: post)).map
      (fun i => (i.category, i.is_blocking))) = some ("xcode_target", true) := by
  have hne : (pre ++ e :: post).isEmpty = false := by
    cases pre <;> rfl
  unfold check_build_errors
  simp only [hne, Bool.false_eq_true, if_false]
  rw [findSome?_append_of_forall_none (fun x hx => by rw [hpre x hx]; rfl)]
  rw [List.findSome?_cons]
  have hopt := findManualEntry_xctest e hmatch
  cases hfind : findManualEntry (buildErrorText e) with
  | none => rw [hfind] at hopt; simp at hopt
  | some entry =>
      rw [hfind] at hopt
      have h1 : (entry.category, entry.title) =
          ("xcode_target", "Test File Not in Test Target") := Option.some.inj hopt
      have hcat : entry.category = "xcode_target" := congrArg Prod.fst h1
      simp [hcat]

/-- Witness for the amended C9: a single XCTest error yields the blocking
`xcode_target` intervention. -/
theorem xctest_category_witness :
    ((check_build_errors
        ([] ++ { file_path := "Tests/FooTests.swift", line_number := some 1,
                 column_number := none,
                 message := "No such module " ++ apos ++ "XCTest" ++ apos,
                 error_type := "error" } :: [])).map
      (fun i => (i.category, i.is_blocking))) = some ("xcode_target", true) :=
  xctest_category_when_first_match [] []
    { file_path := "Tests/FooTests.swift", line_number := some 1,
      column_number := none,
      message := "No such module " ++ apos ++ "XCTest" ++ apos,
      error_type := "error" }
    (fun e' he' => absurd he' (List.not_mem_nil e'))
    (by decide)

/-- Three same-signature `check_repeated_errors` calls from empty counts:
the first two return nothing, the third fires the blocking repeated-failure
intervention. -/
def repeatedTrioFires (d : DetectorState) (E1 E2 E3 : List BuildError)
    (i1 i2 i3 : Nat) : Prop :=
  (check_repeated_errors d E1 i1).fst = none ∧
  (check_repeated_errors (check_repeated_errors d E1 i1).snd E2 i2).fst = none ∧
  ((check_repeated_errors
      (check_repeated_errors (check_repeated_errors d E1 i1).snd E2 i2).snd
      E3 i3).fst).map (fun i => (i.category, i.is_blocking)) =
    some ("repeated_failure", true)

theorem repeated_trio (d : DetectorState) (E1 E2 E3 : List BuildError)
    (i1 i2 i3 : Nat)
    (hm : d.max_same_error_retries = 3) (hd : d.error_counts = [])
    (hne1 : E1.isEmpty = false) (hne2 : E2.isEmpty = false)
    (hne3 : E3.isEmpty = false)
    (hsig2 : get_error_signature E2 = get_error_signature E1)
    (hsig3 : get_error_signature E3 = get_error_signature E1)
    (hrec3 : errsHaveRecoverable E3 = false)
    (hi1 : 3 ≤ i1) (hi2 : 3 ≤ i2) (hi3 : 3 ≤ i3) :
    repeatedTrioFires d E1 E2 E3 i1 i2 i3 := by
  have h1 : check_repeated_errors d E1 i1 =
      (none, { d with error_counts := [(get_error_signature E1, 1)] }) := by
    unfold check_repeated_errors
    rw [hm, hd, hne1]
    simp [Nat.not_lt.mpr hi1, countsGet_nil, countsSet_nil]
  have h2 : check_repeated_errors
      { d with error_counts := [(get_error_signature E1, 1)] } E2 i2 =
      (none, { d with error_counts := [(get_error_signature E1, 2)] }) := by
    unfold check_repeated_errors
    rw [hsig2]
    simp [hm, hne2, Nat.not_lt.mpr hi2, countsGet_singleton, countsSet_singleton]
  have h3 : check_repeated_errors
      { d with error_counts := [(get_error_signature E1, 2)] } E3 i3 =
      (some (repeatedFailureIntervention E3),
       { d with error_counts := [(get_error_signature E1, 3)] }) := by
    unfold check_repeated_errors
    rw [hsig3]
    simp [hm, hne3, hrec3, Nat.not_lt.mpr hi3, countsGet_singleton,
      countsSet_singleton]
  refine ⟨?_, ?_, ?_⟩ <;>
    simp [repeatedTrioFires, h1, h2, h3, repeatedFailureIntervention]

/-- C4, counterexample: the error list is non-empty, identical across the
calls, and matches no recoverable pattern, yet the third call with
iteration argument 1 (below the threshold 3) returns no intervention —
`check_repeated_errors` returns early (without even counting) whenever
`iteration < max_same_error_retries`. -/
theorem repeated_errors_low_iteration_no_fire :
    E4.isEmpty = false ∧ errsHaveRecoverable E4 = false ∧
    (check_repeated_errors
      (check_repeated_errors (check_repeated_errors initDetector E4 1).snd
        E4 1).snd E4 1).fst = none := by
  refine ⟨rfl, by decide, rfl⟩

/-- C4, amended: for calls whose error lists are non-empty, yield the
identical signature, and none of whose errors match a recoverable pattern,
the 3rd call returns a blocking repeated-failure intervention *provided
every iteration argument is at least the threshold 3*; and after
`reset_error_counts` the same holds again (three more occurrences are
needed). -/
theorem repeated_failure_on_third_call (d : DetectorState)
    (E1 E2 E3 : List BuildError) (i1 i2 i3 : Nat)
    (hm : d.max_same_error_retries = 3) (hd : d.error_counts = [])
    (hne1 : E1.isEmpty = false) (hne2 : E2.isEmpty = false)
    (hne3 : E3.isEmpty = false)
    (hsig2 : get_error_signature E2 = get_error_signature E1)
    (hsig3 : get_error_signature E3 = get_error_signature E1)
    (hrec1 : errsHaveRecoverable E1 = false)
    (hrec2 : errsHaveRecoverable E2 = false)
    (hrec3 : errsHaveRecoverable E3 = false)
    (hi1 : 3 ≤ i1) (hi2 : 3 ≤ i2) (hi3 : 3 ≤ i3) :
    repeatedTrioFires d E1 E2 E3 i1 i2 i3 ∧
    ∀ d₀ : DetectorState, d₀.max_same_error_retries = 3 →
      repeatedTrioFires (reset_error_counts d₀) E1 E2 E3 i1 i2 i3 := by
  refine ⟨repeated_trio d E1 E2 E3 i1 i2 i3 hm hd hne1 hne2 hne3 hsig2 hsig3
    hrec3 hi1 hi2 hi3, ?_⟩
  intro d₀ h₀
  exact repeated_trio (reset_error_counts d₀) E1 E2 E3 i1 i2 i3 h₀ rfl
    hne1 hne2 hne3 hsig2 hsig3 hrec3 hi1 hi2 hi3

/-- Witness for the amended C4: the same non-recoverable error list three
times at iteration 3 fires on the third call, from a fresh detector and
again after a reset. -/
theorem repeated_failure_on_third_call_witness :
    repeatedTrioFires initDetector E4 E4 E4 3 3 3 ∧
    ∀ d₀ : DetectorState, d₀.max_same_error_retries = 3 →
      repeatedTrioFires (reset_error_counts d₀) E4 E4 E4 3 3 3 :=
  repeated_failure_on_third_call initDetector E4 E4 E4 3 3 3 rfl rfl rfl rfl
    rfl rfl rfl (by decide) (by decide) (by decide) (by decide) (by decide)
    (by decide)

/-- The state reached by failing a phase and later completing it. -/
def s_bad : ExecutionState := complete_phase (fail_phase initialState "p1" "boom") "p1"

/-- C6, counterexample: `fail_phase "p1"` followed by `complete_phase "p1"`
is reachable through the StateStore operations and leaves `"p1"` in both
`completed_phases` and `failed_phases` — neither mutator removes the id
from the other list. -/
theorem phase_in_both_lists :
    Reachable s_bad ∧ "p1" ∈ s_bad.completed_phases ∧ "p1" ∈ s_bad.failed_phases :=
  ⟨Reachable.complete_phase "p1" (Reachable.fail_phase "p1" "boom" Reachable.init),
   by decide, by decide⟩

/-- C6, amended: in every reachable `ExecutionState` each of
`completed_phases` and `failed_phases` is duplicate-free (a phase id appears
at most once in each list), though a phase that fails and later completes
appears in both. -/
theorem phase_lists_nodup (s : ExecutionState) (h : Reachable s) :
    s.completed_phases.Nodup ∧ s.failed_phases.Nodup := by
  induction h with
  | init => exact ⟨List.nodup_nil, List.nodup_nil⟩
  | start_execution _ ih => exact ih
  | start_phase _ _ _ ih => exact ih
  | advance_step _ _ ih => exact ih
  | record_retry _ _ ih => exact ih
  | record_build_errors _ _ ih => exact ih
  | record_test_failures _ _ ih => exact ih
  | complete_phase phase_id _ ih =>
      refine ⟨?_, ih.2⟩
      simp only [SLT.complete_phase]
      split_ifs with hmem
      · exact ih.1
      · simp [List.nodup_append, hmem, ih.1]
  | fail_phase phase_id error _ ih =>
      refine ⟨ih.1, ?_⟩
      simp only [SLT.fail_phase]
      split_ifs with hmem
      · exact ih.2
      · simp [List.nodup_append, hmem, ih.2]
  | record_rate_limit _ _ ih => exact ih
  | clear_rate_limit _ ih => exact ih
  | pause_execution _ ih => exact ih
  | complete_execution _ ih => exact ih

/-- Witness for the amended C6: the lists of the fail-then-complete state
are each duplicate-free. -/
theorem phase_lists_nodup_witness :
    (complete_phase (fail_phase initialState "p1" "boom") "p1").completed_phases.Nodup ∧
    (complete_phase (fail_phase initialState "p1" "boom") "p1").failed_phases.Nodup :=
  phase_lists_nodup _
    (Reachable.complete_phase "p1" (Reachable.fail_phase "p1" "boom" Reachable.init))

/-- A run state sitting at the GENERATE step of iteration 2. -/
def rsC2 : RunState :=
  { exec := { current_step := Step.GENERATE, iteration := 2, status := Status.RUNNING }
    iteration := 2
    detector := initDetector
    limiter := initRateLimitHandler }

/-- C2: a `RateLimitError` is handled by persisting rate-limited status,
waiting, clearing the status, and re-entering the loop with the same
`current_step` and the same iteration counter — so the hit is not counted
against `max_retries_per_phase` (the loop guard sees an unchanged
iteration). -/
theorem rate_limit_reenters_same_step (rs : RunState) (ra : Option Int) (r : ℚ)
    (phase : PhaseConfig) (maxR fuel : Nat) (evs : List ExtEvent)
    (hstep : rs.exec.current_step = Step.GENERATE)
    (hit : rs.iteration ≤ maxR) :
    runLoop phase maxR (fuel + 1) rs (ExtEvent.genRate ra r :: evs) =
      runLoop phase maxR fuel (handleRateLimit rs ra r).fst evs
    ∧ (handleRateLimit rs ra r).snd.status = Status.RATE_LIMITED
    ∧ (handleRateLimit rs ra r).snd.is_rate_limited = true
    ∧ (handleRateLimit rs ra r).fst.exec.status = Status.RUNNING
    ∧ (handleRateLimit rs ra r).fst.exec.is_rate_limited = false
    ∧ (handleRateLimit rs ra r).fst.exec.current_step = rs.exec.current_step
    ∧ (handleRateLimit rs ra r).fst.exec.iteration = rs.exec.iteration
    ∧ (handleRateLimit rs ra r).fst.iteration = rs.iteration := by
  refine ⟨?_, rfl, rfl, rfl, rfl, rfl, rfl, rfl⟩
  conv_lhs => rw [runLoop.eq_def]
  dsimp only
  rw [if_neg (Nat.not_lt.mpr hit)]
  simp [runBody, doGenerate, hstep, seqOut]

/-- Witness for C2: a concrete rate-limit hit at GENERATE, iteration 2. -/
theorem rate_limit_reenters_same_step_witness :
    runLoop phaseC 15 1 rsC2 (ExtEvent.genRate (some 30) (1 / 2) :: []) =
      runLoop phaseC 15 0 (handleRateLimit rsC2 (some 30) (1 / 2)).fst []
    ∧ (handleRateLimit rsC2 (some 30) (1 / 2)).snd.status = Status.RATE_LIMITED
    ∧ (handleRateLimit rsC2 (some 30) (1 / 2)).snd.is_rate_limited = true
    ∧ (handleRateLimit rsC2 (some 30) (1 / 2)).fst.exec.status = Status.RUNNING
    ∧ (handleRateLimit rsC2 (some 30) (1 / 2)).fst.exec.is_rate_limited = false
    ∧ (handleRateLimit rsC2 (some 30) (1 / 2)).fst.exec.current_step =
        rsC2.exec.current_step
    ∧ (handleRateLimit rsC2 (some 30) (1 / 2)).fst.exec.iteration =
        rsC2.exec.iteration
    ∧ (handleRateLimit rsC2 (some 30) (1 / 2)).fst.iteration = rsC2.iteration :=
  rate_limit_reenters_same_step rsC2 (some 30) (1 / 2) phaseC 15 0 [] rfl
    (by decide)

/-- The run state carried by a body-block outcome. -/
def bodyOutRun : BodyOut → Option RunState
  | BodyOut.ret _ rs => some rs
  | BodyOut.cont rs _ => some rs
  | BodyOut.next rs _ => some rs
  | BodyOut.stuck => none

/-- A run state sitting at the TEST step with stale signature counts. -/
def rsC5 : RunState :=
  { exec := { current_step := Step.TEST, iteration := 2 }
    iteration := 2
    detector := { error_counts := [("s1", 2)] }
    limiter := initRateLimitHandler }

/-- C5, counterexample: from a state at TEST with stale signature counts, a
successful TEST step completes the phase while the counts survive
untouched — the test-success path never invokes `reset_error_counts`. -/
theorem test_success_keeps_stale_counts :
    (runLoop phaseC 15 1 rsC5 [ExtEvent.testOk]).map
      (fun x => (x.fst.success, x.snd.detector.error_counts)) =
      some (true, [("s1", 2)]) ∧
    ([("s1", 2)] : List (String × Nat)) ≠ [] :=
  ⟨rfl, by decide⟩

/-- C5, amended: the signature counts are reset (via `reset_error_counts`)
exactly when the BUILD step succeeds; the TEST-success path performs no
reset and passes the counts through unchanged.  (Since BUILD success
precedes every TEST execution within an iteration, the counts are already
empty when TEST runs in a complete loop pass.) -/
theorem reset_on_build_success_only (phase : PhaseConfig) (rs : RunState)
    (evs : List ExtEvent) :
    (rs.exec.current_step = Step.BUILD →
      (bodyOutRun (doBuild phase rs (ExtEvent.buildOk :: evs))).map
        (fun x => x.detector.error_counts) = some [])
    ∧ (rs.exec.current_step = Step.TEST → phase.tests_required = true →
      (bodyOutRun (doTest phase rs (ExtEvent.testOk :: evs))).map
        (fun x => x.detector.error_counts) = some rs.detector.error_counts) := by
  constructor
  · intro h
    simp [doBuild, h, bodyOutRun, reset_error_counts]
  · intro h ht
    simp [doTest, h, ht, bodyOutRun]

/-- Witness for the amended C5: build success resets the stale counts, test
success leaves them unchanged. -/
theorem reset_on_build_success_only_witness :
    (bodyOutRun (doBuild phaseC
        { rsC5 with exec := { rsC5.exec with current_step := Step.BUILD } }
        (ExtEvent.buildOk :: []))).map
      (fun x => x.detector.error_counts) = some [] ∧
    (bodyOutRun (doTest phaseC rsC5 (ExtEvent.testOk :: []))).map
      (fun x => x.detector.error_counts) = some rsC5.detector.error_counts :=
  ⟨(reset_on_build_success_only phaseC
      { rsC5 with exec := { rsC5.exec with current_step := Step.BUILD } } []).1 rfl,
   (reset_on_build_success_only phaseC rsC5 []).2 rfl rfl⟩

/-- The persisted state of an interrupted run: phase-3 stopped at TEST in
iteration 4. -/
def s0C1 : ExecutionState :=
  { current_module := some "m1"
    current_phase := some "phase-3"
    current_step := Step.TEST
    iteration := 4
    status := Status.PAUSED }

/-- C1 (documents the code bug): re-running the phase from the persisted
state `current_step = TEST, iteration = 4` does **not** re-enter TEST with
iteration 4 — `run_phase` unconditionally calls `start_phase`, which resets
the step to GENERATE and the iteration to 1; the run then demands a fresh
generate outcome first (a test outcome alone leaves it stuck), and a full
generate/build/test pass completes with `iterations = 1`. -/
theorem resume_restarts_at_generate :
    (start_phase s0C1 "m1" phaseC).current_step = Step.GENERATE ∧
    (start_phase s0C1 "m1" phaseC).iteration = 1 ∧
    runPhase s0C1 initDetector initRateLimitHandler "m1" phaseC 15 1
      [ExtEvent.testOk] = none ∧
    (runPhase s0C1 initDetector initRateLimitHandler "m1" phaseC 15 1
        [ExtEvent.genOk, ExtEvent.buildOk, ExtEvent.testOk]).map
      (fun x => (x.fst.success, x.fst.iterations)) = some (true, 1) :=
  ⟨rfl, rfl, rfl, rfl⟩

theorem advance_step_current_step (s : ExecutionState) (st : Step) :
    (advance_step s st).current_step = st := rfl

/-- `n` rounds of generate-success / build-failure with non-blocking,
recoverable errors drive the loop to max-retries exhaustion: the result is
failed with `iterations = maxR + 1`. -/
theorem runLoop_fail_rounds (phase : PhaseConfig) (maxR : Nat)
    (E : List BuildError) (hman : check_build_errors E = none)
    (hrec : errsHaveRecoverable E = true) (n : Nat) :
    ∀ rs : RunState,
      rs.exec.current_step = Step.GENERATE →
      rs.exec.iteration = rs.iteration →
      rs.iteration + n = maxR + 1 →
      (runLoop phase maxR n rs (failTrace E n)).map
        (fun x => (x.fst.success, x.fst.iterations)) = some (false, maxR + 1) := by
  induction n with
  | zero =>
      intro rs hstep hiter hsum
      have hlt : maxR < rs.iteration := by omega
      rw [runLoop_guard_exit phase maxR 0 rs (failTrace E 0) hlt]
      have h4 : rs.exec.iteration = maxR + 1 := by omega
      simp [fail_phase_result, fail_phase, h4]
  | succ n ih =>
      intro rs hstep hiter hsum
      have hle : ¬ maxR < rs.iteration := by omega
      have hcr : ∀ (st : DetectorState) (it : Nat),
          (check_repeated_errors st E it).fst = none :=
        fun st it => check_repeated_errors_fst_of_recoverable st E it hrec
      have hbody : runBody phase rs
          (ExtEvent.genOk :: ExtEvent.buildErr E :: failTrace E n) =
          BodyOut.cont (doBuild.buildRetry phase
            { rs with
              exec := advance_step rs.exec Step.BUILD
              limiter := record_success rs.limiter }
            (check_repeated_errors rs.detector E rs.iteration).snd E)
            (failTrace E n) := by
        simp [runBody, doGenerate, doBuild, seqOut, hstep, hman, hcr,
          advance_step_current_step]
      rw [runLoop.eq_def]
      dsimp only
      rw [if_neg hle]
      rw [show failTrace E (n + 1) =
        ExtEvent.genOk :: ExtEvent.buildErr E :: failTrace E n from rfl]
      rw [hbody]
      refine ih _ rfl (congrArg (· + 1) hiter) ?_
      show rs.iteration + 1 + n = maxR + 1
      omega

/-- C7: (a) whenever the local iteration exceeds `max_retries_per_phase`,
the loop returns a failed `PhaseResult` with `iterations` equal to the
persisted iteration, regardless of the current step; (b) `max_retries`
rounds of alternating build-failure / generate-retry (with non-blocking,
recoverable errors, so no intervention fires) make `run_phase` return a
failed `PhaseResult` with `iterations = max_retries_per_phase + 1`. -/
theorem max_retries_exhaustion (s0 : ExecutionState) (det : DetectorState)
    (lim : RateLimitHandler) (module_id : String) (phase : PhaseConfig)
    (maxR : Nat) (E : List BuildError)
    (hman : check_build_errors E = none)
    (hrec : errsHaveRecoverable E = true) :
    (∀ (fuel : Nat) (rs : RunState) (evs : List ExtEvent),
      maxR < rs.iteration →
      (runLoop phase maxR fuel rs evs).map
        (fun x => (x.fst.success, x.fst.iterations)) =
        some (false, rs.exec.iteration))
    ∧ (runPhase s0 det lim module_id phase maxR maxR (failTrace E maxR)).map
        (fun x => (x.fst.success, x.fst.iterations)) = some (false, maxR + 1) := by
  constructor
  · intro fuel rs evs h
    rw [runLoop_guard_exit phase maxR fuel rs evs h]
    simp [fail_phase_result, fail_phase]
  · refine runLoop_fail_rounds phase maxR E hman hrec maxR _ rfl rfl ?_
    show 1 + maxR = maxR + 1
    omega

/-- Witness for C7: with `max_retries_per_phase = 2`, two failure rounds
yield a failed result with `iterations = 3`; and the guard-exit fact holds
at a state already beyond the ceiling. -/
theorem max_retries_exhaustion_witness :
    (runLoop phaseC 2 0 { rsC2 with iteration := 5 } []).map
      (fun x => (x.fst.success, x.fst.iterations)) =
      some (false, ({ rsC2 with iteration := 5 } : RunState).exec.iteration)
    ∧ (runPhase initialState initDetector initRateLimitHandler "m1" phaseC 2 2
        (failTrace E7 2)).map
      (fun x => (x.fst.success, x.fst.iterations)) = some (false, 3) :=
  ⟨(max_retries_exhaustion initialState initDetector initRateLimitHandler "m1"
      phaseC 2 E7 (by decide) (by decide)).1 0 { rsC2 with iteration := 5 } []
      (by decide),
   (max_retries_exhaustion initialState initDetector initRateLimitHandler "m1"
      phaseC 2 E7 (by decide) (by decide)).2⟩

end SLT
